import Mathlib

/-!
Verification development for the Nina voice pipeline of the agenticSeek
repository.  The definitions below are shallow embeddings of the Python
sources: `nina_voice_simple.py` (voice-activity detection, the audio
capture loop and the transcript processing loop), `nina_intent.py`
(intent classification), `nina_agentic_integration.py` (barge-in and
playback cancellation) and `nina_voice_system.py` (response adaptation).

Python strings are modelled as lists of characters (`Str`), the Python
substring test `a in b` as `containsSub`, `str.find` as `subFind`,
`str.strip` as `trimStr`, `str.lower` as `lowerStr` and `str.replace`
as `replaceList`.  An audio chunk is represented by its RMS energy (an
integer): the segmentation logic of the source inspects a chunk only
through the comparison `energy > threshold`, and an utterance is the
list of buffered chunks.  Wall-clock timestamps are modelled as
integers; the source only subtracts and compares them.
-/

set_option maxRecDepth 40000

/-! ## String primitives -/

abbrev Str := List Char

/-- Python `s.lower()`. -/
def lowerStr (s : Str) : Str := s.map Char.toLower

/-- Python `s.strip()`: whitespace removed from both ends. -/
def trimStr (s : Str) : Str :=
  ((s.dropWhile Char.isWhitespace).reverse.dropWhile Char.isWhitespace).reverse

/-- Python `needle in hay` (substring containment). -/
def containsSub (needle : Str) : Str → Bool
  | [] => needle.isEmpty
  | c :: t => needle.isPrefixOf (c :: t) || containsSub needle t

/-- Python `hay.find(needle)`: index of the first occurrence, `none` when
the needle does not occur (Python returns `-1`). -/
def subFind (needle : Str) : Str → Option ℕ
  | [] => if needle.isEmpty then some 0 else none
  | c :: t =>
    if needle.isPrefixOf (c :: t) then some 0
    else (subFind needle t).map (fun i => i + 1)

/-! ## Voice-activity detection, from `SimpleNinaVoice._audio_loop`

The capture loop keeps a buffer of chunks, a count of trailing silent
chunks and a flag recording whether speech has been detected
(`nina_voice_simple.py`, lines 129-181).  The thresholds are the
constants set in `SimpleNinaVoice.__init__` (lines 52-54) and the
hard-coded overflow bound 160 of line 177. -/

def energy_threshold : ℤ := 1000

def silence_chunks_needed : ℕ := 8

def min_speech_chunks : ℕ := 15

def max_buffer_chunks : ℕ := 160

structure VadState where
  buffer : List ℤ
  silenceCount : ℕ
  speechDetected : Bool
deriving DecidableEq

def VadState.init : VadState := ⟨[], 0, false⟩

/-- The voice-activity branch of one iteration of `_audio_loop`
(lines 147-174): energy above the threshold appends the chunk and
resets the silence counter; a silent chunk while collecting is also
appended, and once enough trailing silence has accumulated the buffer
is emitted when long enough, otherwise discarded. -/
def vadDetect (s : VadState) (energy : ℤ) : VadState × Option (List ℤ) :=
  if energy_threshold < energy then
    (⟨s.buffer ++ [energy], 0, true⟩, none)
  else if s.speechDetected then
    if silence_chunks_needed ≤ s.silenceCount + 1 then
      if min_speech_chunks ≤ (s.buffer ++ [energy]).length then
        (VadState.init, some (s.buffer ++ [energy]))
      else (VadState.init, none)
    else (⟨s.buffer ++ [energy], s.silenceCount + 1, true⟩, none)
  else (s, none)

/-- One full iteration of `_audio_loop` on a chunk: the VAD branch
followed by the overflow guard of lines 176-181, which resets the
buffer, counter and flag when more than 160 chunks are buffered. -/
def vadStep (s : VadState) (energy : ℤ) : VadState × Option (List ℤ) :=
  if max_buffer_chunks < (vadDetect s energy).1.buffer.length then
    (VadState.init, (vadDetect s energy).2)
  else vadDetect s energy

/-- One iteration of the capture loop including the gates that precede
the VAD branch: when `is_speaking` is set the iteration only sleeps
(lines 135-138), and an exception raised by the device read is caught
and printed, after which the loop continues (lines 183-184).  A read
result of `none` models a failed device read. -/
def audioStep (speaking : Bool) (readResult : Option ℤ) (s : VadState) :
    VadState × Option (List ℤ) :=
  if speaking then (s, none)
  else
    match readResult with
    | none => (s, none)
    | some energy => vadStep s energy

/-- Runs the capture loop over a list of iterations, each given by the
`is_speaking` flag observed at its start and the result of the device
read; collects the emitted utterances in order. -/
def audioRun : VadState → List (Bool × Option ℤ) → VadState × List (List ℤ)
  | s, [] => (s, [])
  | s, ev :: evs =>
    ((audioRun (audioStep ev.1 ev.2 s).1 evs).1,
      (audioStep ev.1 ev.2 s).2.toList ++ (audioRun (audioStep ev.1 ev.2 s).1 evs).2)

/-- The capture loop on a plain sequence of successfully read chunks
while Nina is not speaking. -/
def vadRun (s : VadState) (frames : List ℤ) : VadState × List (List ℤ) :=
  audioRun s (frames.map (fun e => (false, some e)))

theorem vadRun_nil (s : VadState) : vadRun s [] = (s, []) := rfl

theorem vadRun_cons (s : VadState) (e : ℤ) (es : List ℤ) :
    vadRun s (e :: es) =
      ((vadRun (vadStep s e).1 es).1,
        (vadStep s e).2.toList ++ (vadRun (vadStep s e).1 es).2) := by
  simp [vadRun, audioRun, audioStep]

theorem vadRun_cons_eq {s s1 : VadState} {out : Option (List ℤ)} (e : ℤ)
    (es : List ℤ) (h : vadStep s e = (s1, out)) :
    vadRun s (e :: es) =
      ((vadRun s1 es).1, out.toList ++ (vadRun s1 es).2) := by
  rw [vadRun_cons, h]

theorem vadRun_append (s : VadState) (xs ys : List ℤ) :
    vadRun s (xs ++ ys) =
      ((vadRun (vadRun s xs).1 ys).1,
        (vadRun s xs).2 ++ (vadRun (vadRun s xs).1 ys).2) := by
  induction xs generalizing s with
  | nil => simp [vadRun_nil]
  | cons e es ih => simp [vadRun_cons, ih]

/-! ### Step lemmas for the VAD -/

theorem vadDetect_speech (b : List ℤ) (sc : ℕ) (d : Bool) (e : ℤ)
    (he : energy_threshold < e) :
    vadDetect ⟨b, sc, d⟩ e = (⟨b ++ [e], 0, true⟩, none) := by
  rw [vadDetect, if_pos he]

theorem vadDetect_silence_idle (b : List ℤ) (sc : ℕ) (e : ℤ)
    (he : ¬ energy_threshold < e) :
    vadDetect ⟨b, sc, false⟩ e = (⟨b, sc, false⟩, none) := by
  rw [vadDetect, if_neg he, if_neg]
  simp

theorem vadDetect_silence_count (b : List ℤ) (sc : ℕ) (e : ℤ)
    (he : ¬ energy_threshold < e) (hsc : sc + 1 < silence_chunks_needed) :
    vadDetect ⟨b, sc, true⟩ e = (⟨b ++ [e], sc + 1, true⟩, none) := by
  rw [vadDetect, if_neg he, if_pos (by simp),
    if_neg (show ¬ silence_chunks_needed ≤ sc + 1 by omega)]

theorem vadDetect_silence_emit (b : List ℤ) (sc : ℕ) (e : ℤ)
    (he : ¬ energy_threshold < e) (hsc : silence_chunks_needed ≤ sc + 1)
    (hlen : min_speech_chunks ≤ b.length + 1) :
    vadDetect ⟨b, sc, true⟩ e = (VadState.init, some (b ++ [e])) := by
  rw [vadDetect, if_neg he, if_pos (by simp),
    if_pos (show silence_chunks_needed ≤ sc + 1 by omega),
    if_pos (show min_speech_chunks ≤ (b ++ [e]).length by
      simp only [List.length_append, List.length_singleton]; omega)]

theorem vadDetect_silence_drop (b : List ℤ) (sc : ℕ) (e : ℤ)
    (he : ¬ energy_threshold < e) (hsc : silence_chunks_needed ≤ sc + 1)
    (hlen : b.length + 1 < min_speech_chunks) :
    vadDetect ⟨b, sc, true⟩ e = (VadState.init, none) := by
  rw [vadDetect, if_neg he, if_pos (by simp),
    if_pos (show silence_chunks_needed ≤ sc + 1 by omega),
    if_neg (show ¬ min_speech_chunks ≤ (b ++ [e]).length by
      simp only [List.length_append, List.length_singleton]; omega)]

theorem vadStep_speech (b : List ℤ) (sc : ℕ) (d : Bool) (e : ℤ)
    (he : energy_threshold < e) (hb : b.length + 1 ≤ max_buffer_chunks) :
    vadStep ⟨b, sc, d⟩ e = (⟨b ++ [e], 0, true⟩, none) := by
  rw [vadStep, vadDetect_speech b sc d e he, if_neg]
  simp only [List.length_append, List.length_singleton]
  omega

theorem vadStep_speech_overflow (b : List ℤ) (sc : ℕ) (d : Bool) (e : ℤ)
    (he : energy_threshold < e) (hb : max_buffer_chunks ≤ b.length) :
    vadStep ⟨b, sc, d⟩ e = (VadState.init, none) := by
  rw [vadStep, vadDetect_speech b sc d e he, if_pos]
  simp only [List.length_append, List.length_singleton]
  omega

theorem vadStep_silence_idle (b : List ℤ) (sc : ℕ) (e : ℤ)
    (he : ¬ energy_threshold < e) (hb : b.length ≤ max_buffer_chunks) :
    vadStep ⟨b, sc, false⟩ e = (⟨b, sc, false⟩, none) := by
  rw [vadStep, vadDetect_silence_idle b sc e he,
    if_neg (show ¬ max_buffer_chunks < b.length by omega)]

theorem vadStep_silence_count (b : List ℤ) (sc : ℕ) (e : ℤ)
    (he : ¬ energy_threshold < e) (hsc : sc + 1 < silence_chunks_needed)
    (hb : b.length + 1 ≤ max_buffer_chunks) :
    vadStep ⟨b, sc, true⟩ e = (⟨b ++ [e], sc + 1, true⟩, none) := by
  rw [vadStep, vadDetect_silence_count b sc e he hsc, if_neg]
  simp only [List.length_append, List.length_singleton]
  omega

theorem vadStep_silence_emit (b : List ℤ) (sc : ℕ) (e : ℤ)
    (he : ¬ energy_threshold < e) (hsc : silence_chunks_needed ≤ sc + 1)
    (hlen : min_speech_chunks ≤ b.length + 1) :
    vadStep ⟨b, sc, true⟩ e = (VadState.init, some (b ++ [e])) := by
  rw [vadStep, vadDetect_silence_emit b sc e he hsc hlen, if_neg]
  simp [VadState.init, max_buffer_chunks]

theorem vadStep_silence_drop (b : List ℤ) (sc : ℕ) (e : ℤ)
    (he : ¬ energy_threshold < e) (hsc : silence_chunks_needed ≤ sc + 1)
    (hlen : b.length + 1 < min_speech_chunks) :
    vadStep ⟨b, sc, true⟩ e = (VadState.init, none) := by
  rw [vadStep, vadDetect_silence_drop b sc e he hsc hlen, if_neg]
  simp [VadState.init, max_buffer_chunks]

/-! ### Run lemmas for the VAD -/

theorem vadRun_speech_collect (sp : List ℤ) :
    ∀ b : List ℤ, (∀ e ∈ sp, energy_threshold < e) →
    b.length + sp.length ≤ max_buffer_chunks →
    vadRun ⟨b, 0, true⟩ sp = (⟨b ++ sp, 0, true⟩, []) := by
  induction sp with
  | nil => intro b _ _; simp [vadRun_nil]
  | cons e es ih =>
    intro b hsp hlen
    rw [vadRun_cons, vadStep_speech b 0 true e (hsp e (by simp))
      (by simp at hlen; omega)]
    rw [ih (b ++ [e]) (fun x hx => hsp x (by simp [hx]))
      (by simp at hlen ⊢; omega)]
    simp

theorem vadRun_speech_any (sp : List ℤ) (b : List ℤ) (sc : ℕ) (d : Bool)
    (hne : sp ≠ []) (hsp : ∀ e ∈ sp, energy_threshold < e)
    (hlen : b.length + sp.length ≤ max_buffer_chunks) :
    vadRun ⟨b, sc, d⟩ sp = (⟨b ++ sp, 0, true⟩, []) := by
  match sp, hne with
  | e :: es, _ =>
    rw [vadRun_cons, vadStep_speech b sc d e (hsp e (by simp))
      (by simp at hlen; omega)]
    rw [vadRun_speech_collect es (b ++ [e]) (fun x hx => hsp x (by simp [hx]))
      (by simp at hlen ⊢; omega)]
    simp

theorem vadRun_silence_idle (sil : List ℤ) :
    ∀ b : List ℤ, ∀ sc : ℕ, (∀ e ∈ sil, ¬ energy_threshold < e) →
    b.length ≤ max_buffer_chunks →
    vadRun ⟨b, sc, false⟩ sil = (⟨b, sc, false⟩, []) := by
  induction sil with
  | nil => intro b sc _ _; simp [vadRun_nil]
  | cons e es ih =>
    intro b sc hsil hb
    rw [vadRun_cons, vadStep_silence_idle b sc e (hsil e (by simp)) hb]
    rw [ih b sc (fun x hx => hsil x (by simp [hx])) hb]
    simp

theorem vadRun_silence_close (sil : List ℤ) :
    ∀ (i : ℕ) (b : List ℤ), i < silence_chunks_needed →
    silence_chunks_needed ≤ i + sil.length →
    (∀ e ∈ sil, ¬ energy_threshold < e) →
    min_speech_chunks ≤ b.length + (silence_chunks_needed - i) →
    b.length + (silence_chunks_needed - 1 - i) ≤ max_buffer_chunks →
    vadRun ⟨b, i, true⟩ sil =
      (VadState.init, [b ++ sil.take (silence_chunks_needed - i)]) := by
  induction sil with
  | nil =>
    intro i b hi hlen _ _ _
    simp only [List.length_nil] at hlen
    omega
  | cons e es ih =>
    intro i b hi hlen hsil hmin hmax
    by_cases hclose : silence_chunks_needed ≤ i + 1
    · rw [vadRun_cons_eq e es (vadStep_silence_emit b i e (hsil e (by simp)) hclose
        (by omega))]
      simp only [VadState.init]
      rw [vadRun_silence_idle es [] 0 (fun x hx => hsil x (by simp [hx]))
        (by simp [max_buffer_chunks])]
      have htake : silence_chunks_needed - i = 1 := by omega
      simp [htake]
    · rw [vadRun_cons_eq e es (vadStep_silence_count b i e (hsil e (by simp))
        (by omega) (by omega))]
      rw [ih (i + 1) (b ++ [e]) (by omega) (by simp at hlen ⊢; omega)
        (fun x hx => hsil x (by simp [hx]))
        (by simp; omega) (by simp; omega)]
      have htake : silence_chunks_needed - i = (silence_chunks_needed - (i + 1)) + 1 := by
        omega
      rw [htake, List.take_succ_cons]
      simp

theorem vadRun_silence_discard (sil : List ℤ) :
    ∀ (i : ℕ) (b : List ℤ), i < silence_chunks_needed →
    silence_chunks_needed ≤ i + sil.length →
    (∀ e ∈ sil, ¬ energy_threshold < e) →
    b.length + (silence_chunks_needed - i) < min_speech_chunks →
    vadRun ⟨b, i, true⟩ sil = (VadState.init, []) := by
  induction sil with
  | nil =>
    intro i b hi hlen _ _
    simp only [List.length_nil] at hlen
    omega
  | cons e es ih =>
    intro i b hi hlen hsil hmin
    by_cases hclose : silence_chunks_needed ≤ i + 1
    · rw [vadRun_cons_eq e es (vadStep_silence_drop b i e (hsil e (by simp)) hclose
        (by omega))]
      simp only [VadState.init]
      rw [vadRun_silence_idle es [] 0 (fun x hx => hsil x (by simp [hx]))
        (by simp [max_buffer_chunks])]
      simp
    · rw [vadRun_cons_eq e es (vadStep_silence_count b i e (hsil e (by simp))
        (by omega)
        (by simp only [min_speech_chunks, max_buffer_chunks] at *; omega))]
      rw [ih (i + 1) (b ++ [e]) (by omega) (by simp at hlen ⊢; omega)
        (fun x hx => hsil x (by simp [hx])) (by simp; omega)]
      simp

theorem vadRun_silence_short (sil : List ℤ) :
    ∀ (i : ℕ) (b : List ℤ), i + sil.length < silence_chunks_needed →
    (∀ e ∈ sil, ¬ energy_threshold < e) →
    b.length + sil.length ≤ max_buffer_chunks →
    vadRun ⟨b, i, true⟩ sil = (⟨b ++ sil, i + sil.length, true⟩, []) := by
  induction sil with
  | nil => intro i b _ _ _; simp [vadRun_nil]
  | cons e es ih =>
    intro i b hshort hsil hb
    rw [vadRun_cons, vadStep_silence_count b i e (hsil e (by simp))
      (by simp at hshort; omega) (by simp at hb; omega)]
    rw [ih (i + 1) (b ++ [e]) (by simp at hshort ⊢; omega)
      (fun x hx => hsil x (by simp [hx])) (by simp at hb ⊢; omega)]
    simp
    omega

/-! ## Claims about the voice-activity detector (C1, C2, C6, C3) -/

/-- C1 (amended).  For a run of chunks above the onset threshold of
length between `min_speech_chunks` and 153 followed by at least
`silence_chunks_needed` chunks at or below the threshold, the capture
loop emits exactly one utterance, consisting of the speech chunks
followed by the first `silence_chunks_needed` chunks of the silence
run.  The bound 153 keeps the overflow guard of line 177 from firing
before the close; silence chunks beyond the first eight are not part
of the utterance. -/
theorem vad_segment_emission (sp sil : List ℤ)
    (hsp : ∀ e ∈ sp, energy_threshold < e)
    (hsil : ∀ e ∈ sil, ¬ energy_threshold < e)
    (hmin : min_speech_chunks ≤ sp.length) (hmax : sp.length ≤ 153)
    (hslen : silence_chunks_needed ≤ sil.length) :
    vadRun VadState.init (sp ++ sil) =
      (VadState.init, [sp ++ sil.take silence_chunks_needed]) := by
  have hne : sp ≠ [] := by
    intro h
    rw [h] at hmin
    simp [min_speech_chunks] at hmin
  rw [vadRun_append]
  simp only [VadState.init]
  rw [vadRun_speech_any sp [] 0 false hne hsp
    (by simp [max_buffer_chunks]; omega)]
  have h8 : silence_chunks_needed - 0 = silence_chunks_needed := rfl
  have := vadRun_silence_close sil 0 sp (by simp [silence_chunks_needed])
    (by omega) hsil (by rw [h8]; simp only [silence_chunks_needed] at *; omega)
    (by rw [show silence_chunks_needed - 1 - 0 = 7 from rfl]
        simp only [max_buffer_chunks]; omega)
  rw [h8] at this
  simp only [List.nil_append] at this ⊢
  rw [this]
  simp [VadState.init]

/-- C1 counterexample.  A speech run of 161 chunks (all above the
threshold) followed by eight silent chunks satisfies the premise of
the claim, yet the capture loop emits no utterance at all: the
overflow guard discards the buffer at chunk 161, refuting both
"emits exactly one Utterance" and "contains all frames". -/
theorem vad_segment_emission_cex :
    min_speech_chunks ≤ (List.replicate 161 (2000 : ℤ)).length ∧
    (∀ e ∈ List.replicate 161 (2000 : ℤ), energy_threshold < e) ∧
    silence_chunks_needed ≤ (List.replicate 8 (0 : ℤ)).length ∧
    (∀ e ∈ List.replicate 8 (0 : ℤ), ¬ energy_threshold < e) ∧
    vadRun VadState.init (List.replicate 161 (2000 : ℤ) ++ List.replicate 8 (0 : ℤ)) =
      (VadState.init, []) := by
  refine ⟨by decide, by decide, by decide, by decide, ?_⟩
  decide

/-- C1 witness: the amended theorem applied to 15 speech chunks of
energy 2000 followed by 8 silent chunks. -/
theorem vad_segment_emission_witness :
    ((∀ e ∈ List.replicate 15 (2000 : ℤ), energy_threshold < e) ∧
      (∀ e ∈ List.replicate 8 (0 : ℤ), ¬ energy_threshold < e) ∧
      min_speech_chunks ≤ (List.replicate 15 (2000 : ℤ)).length ∧
      (List.replicate 15 (2000 : ℤ)).length ≤ 153 ∧
      silence_chunks_needed ≤ (List.replicate 8 (0 : ℤ)).length) ∧
    vadRun VadState.init (List.replicate 15 (2000 : ℤ) ++ List.replicate 8 (0 : ℤ)) =
      (VadState.init,
        [List.replicate 15 (2000 : ℤ) ++ (List.replicate 8 (0 : ℤ)).take silence_chunks_needed]) :=
  ⟨⟨by decide, by decide, by decide, by decide, by decide⟩,
    vad_segment_emission (List.replicate 15 (2000 : ℤ)) (List.replicate 8 (0 : ℤ))
      (by decide) (by decide) (by decide) (by decide) (by decide)⟩

/-- C2 (amended).  When the buffer reaches the hard maximum of 160
chunks while collecting and the next chunk keeps the utterance open
(speech, or silence that does not yet close it), the overflow guard
of lines 176-181 resets the buffer and discards the collected chunks;
nothing is emitted.  This refutes the claim that the force-close
"emits the frames collected so far rather than discarding them". -/
theorem vad_overflow_discards (b : List ℤ) (sc : ℕ) (e : ℤ)
    (hb : max_buffer_chunks ≤ b.length)
    (he : energy_threshold < e ∨
      (¬ energy_threshold < e ∧ sc + 1 < silence_chunks_needed)) :
    vadStep ⟨b, sc, true⟩ e = (VadState.init, none) := by
  rcases he with he | ⟨he, hsc⟩
  · exact vadStep_speech_overflow b sc true e he hb
  · rw [vadStep, vadDetect_silence_count b sc e he hsc, if_pos]
    simp only [List.length_append, List.length_singleton]
    omega

/-- C2 witness: the amended theorem applied to a full 160-chunk buffer
and one more speech chunk. -/
theorem vad_overflow_discards_witness :
    (max_buffer_chunks ≤ (List.replicate 160 (1500 : ℤ)).length ∧
      energy_threshold < (2000 : ℤ)) ∧
    vadStep ⟨List.replicate 160 (1500 : ℤ), 0, true⟩ 2000 = (VadState.init, none) :=
  ⟨⟨by decide, by decide⟩,
    vad_overflow_discards (List.replicate 160 (1500 : ℤ)) 0 2000 (by decide)
      (Or.inl (by decide))⟩

/-- C2 counterexample.  161 consecutive speech chunks keep `Collecting`
beyond the 160-chunk (about ten seconds) bound; the claim says the
collected chunks are then emitted, but the loop emits nothing and the
final state is empty: everything was discarded. -/
theorem vad_overflow_cex :
    (∀ e ∈ List.replicate 161 (2000 : ℤ), energy_threshold < e) ∧
    max_buffer_chunks < (List.replicate 161 (2000 : ℤ)).length ∧
    vadRun VadState.init (List.replicate 161 (2000 : ℤ)) = (VadState.init, []) := by
  refine ⟨by decide, by decide, ?_⟩
  decide

/-- C6 (amended).  A burst is discarded exactly when the buffer at
close time is shorter than `min_speech_chunks`; since the eight
trailing silent chunks are also buffered, this means speech bursts of
at most `min_speech_chunks - silence_chunks_needed - 1 = 6` chunks
produce no utterance.  (The original claim, with bursts of up to 14
speech chunks discarded, is refuted by `vad_short_burst_cex`.) -/
theorem vad_short_burst_discarded (sp sil : List ℤ)
    (hsp : ∀ e ∈ sp, energy_threshold < e)
    (hsil : ∀ e ∈ sil, ¬ energy_threshold < e)
    (hshort : sp.length + silence_chunks_needed < min_speech_chunks) :
    (vadRun VadState.init (sp ++ sil)).2 = [] := by
  by_cases hne : sp = []
  · subst hne
    simp only [List.nil_append]
    rw [show VadState.init = ⟨[], 0, false⟩ from rfl,
      vadRun_silence_idle sil [] 0 hsil (by simp [max_buffer_chunks])]
  · rw [vadRun_append]
    simp only [VadState.init]
    rw [vadRun_speech_any sp [] 0 false hne hsp
      (by simp only [min_speech_chunks, max_buffer_chunks,
        silence_chunks_needed] at *; simp; omega)]
    simp only [List.nil_append]
    by_cases hlen : silence_chunks_needed ≤ sil.length
    · rw [vadRun_silence_discard sil 0 sp (by simp [silence_chunks_needed])
        (by omega) hsil (by omega)]
    · rw [vadRun_silence_short sil 0 sp (by omega) hsil
        (by simp only [min_speech_chunks, max_buffer_chunks,
          silence_chunks_needed] at *; omega)]

/-- C6 witness: the amended theorem applied to a 5-chunk burst followed
by 9 silent chunks. -/
theorem vad_short_burst_witness :
    ((∀ e ∈ List.replicate 5 (3000 : ℤ), energy_threshold < e) ∧
      (∀ e ∈ List.replicate 9 (10 : ℤ), ¬ energy_threshold < e) ∧
      (List.replicate 5 (3000 : ℤ)).length + silence_chunks_needed < min_speech_chunks) ∧
    (vadRun VadState.init (List.replicate 5 (3000 : ℤ) ++ List.replicate 9 (10 : ℤ))).2 = [] :=
  ⟨⟨by decide, by decide, by decide⟩,
    vad_short_burst_discarded (List.replicate 5 (3000 : ℤ)) (List.replicate 9 (10 : ℤ))
      (by decide) (by decide) (by decide)⟩

/-- C6 counterexample.  A burst of only 7 speech chunks — fewer than
`min_speech_chunks = 15` — followed by eight silent chunks IS emitted
as an utterance, because the length test of line 163 counts the
buffered trailing silence as well.  This refutes "bursts shorter than
minSpeechFrames emit no Utterance". -/
theorem vad_short_burst_cex :
    (List.replicate 7 (2000 : ℤ)).length < min_speech_chunks ∧
    (∀ e ∈ List.replicate 7 (2000 : ℤ), energy_threshold < e) ∧
    (∀ e ∈ List.replicate 8 (0 : ℤ), ¬ energy_threshold < e) ∧
    vadRun VadState.init (List.replicate 7 (2000 : ℤ) ++ List.replicate 8 (0 : ℤ)) =
      (VadState.init, [List.replicate 7 (2000 : ℤ) ++ List.replicate 8 (0 : ℤ)]) := by
  refine ⟨by decide, by decide, by decide, ?_⟩
  decide

/-- C3 (amended).  A failed device read raises an exception that lines
183-184 catch and print; the capture loop then simply continues with
the next read, with the segmentation state unchanged.  The failure is
retried silently and is never surfaced to the rest of the pipeline as
a terminal error. -/
theorem audio_read_failure_continues (s : VadState) (evs : List (Bool × Option ℤ)) :
    audioRun s ((false, none) :: evs) = audioRun s evs := by
  rw [audioRun]
  simp [audioStep]

/-- C3 counterexample.  After a failed read the loop processes the next
read normally: the chunk read after the failure lands in the buffer
and speech detection proceeds, refuting "the capture loop does not
continue after such a failure". -/
theorem audio_read_failure_cex :
    audioRun VadState.init [(false, none), (false, some 2000)] =
      (⟨[(2000 : ℤ)], 0, true⟩, []) ∧
    audioRun VadState.init [(false, none)] = (VadState.init, []) := by
  constructor
  · decide
  · decide

/-! ## The transcript processing loop, from `SimpleNinaVoice._process_loop`
and `SimpleNinaVoice._process_command` (`nina_voice_simple.py`,
lines 189-337).

The mutable flags of the source (`is_active`, `wake_detected_time`,
`is_listening`, `is_speaking`) form `ProcState`.  A dequeued transcript
is handled by `handleTranscript`; an empty queue poll is handled by
`handleQueueEmpty`.  The result tag records which path the iteration
took; `CmdOutcome.dispatch` means the text was handed to the agent
router (`router.select_agent` and `agent.process`), which is external. -/

structure ProcState where
  isActive : Bool
  wakeDetectedTime : ℤ
  isListening : Bool
  isSpeaking : Bool
deriving DecidableEq

def wake_word : Str := "nina".toList

/-- The phrases of lines 211-217 used to ignore Nina hearing herself. -/
def nina_phrases : List Str :=
  [("quality is acceptable").toList, ("i\x27m sensitive").toList,
    ("yes, i\x27m listening").toList, ("nina ready").toList, ("goodbye").toList]

/-- The exit phrases of `_process_command` line 267. -/
def exit_words : List Str :=
  [("goodbye").toList, ("bye").toList, ("exit").toList, ("quit").toList,
    ("shutdown").toList, ("stop").toList, ("turn off").toList, ("shut down").toList]

/-- The canned replies of `_process_command` lines 279-285, in
dictionary insertion order. -/
def quick_responses : List (Str × Str) :=
  [(("how are you").toList, ("I\x27m doing great, thank you for asking!").toList),
    (("hello").toList, ("Hello! How can I help you?").toList),
    (("hi").toList, ("Hi there! What can I do for you?").toList),
    (("thank you").toList, ("You\x27re welcome!").toList),
    (("thanks").toList, ("Happy to help!").toList)]

inductive CmdOutcome
  | exitShutdown
  | quickReply (response : Str)
  | dispatch (cmd : Str)
deriving DecidableEq

/-- `_process_command` (lines 258-337) as a function of the command
text alone: exit words are checked first and terminate the process;
otherwise the first matching canned reply is spoken; otherwise the
text goes to the agent router. -/
def processCommand (cmd : Str) : CmdOutcome :=
  if exit_words.any (fun w => containsSub w (lowerStr cmd)) then
    CmdOutcome.exitShutdown
  else
    match quick_responses.find? (fun p => containsSub p.1 (lowerStr cmd)) with
    | some p => CmdOutcome.quickReply p.2
    | none => CmdOutcome.dispatch cmd

/-- Running `_process_command` from the processing loop.  On the exit
path the source sets `is_listening = False` and calls `os._exit`, so
the callers line `self.is_active = False` is never reached and
`is_speaking` stays set; on every other path the `finally` block
clears `is_speaking` and the caller clears `is_active`. -/
def runCommand (s : ProcState) (cmd : Str) : ProcState × CmdOutcome :=
  if processCommand cmd = CmdOutcome.exitShutdown then
    ({s with isSpeaking := true, isListening := false}, processCommand cmd)
  else
    ({s with isSpeaking := false, isActive := false}, processCommand cmd)

inductive ProcResult
  | droppedSpeaking
  | ignoredEmpty
  | ignoredSelfEcho
  | wakeAck
  | command (cmd : Str) (outcome : CmdOutcome)
  | ignoredInactive
deriving DecidableEq

/-- One iteration of `_process_loop` that dequeued a transcript `text`
at time `now` (lines 196-248): skip while speaking, skip empty text,
skip Ninas own phrases, then the wake-word branch (which extracts the
command after the wake word and processes it when longer than two
characters, otherwise acknowledges), and otherwise the active-window
branch, which processes the text as a command only while
`now - wake_detected_time < 5`. -/
def handleTranscript (s : ProcState) (now : ℤ) (text : Str) : ProcState × ProcResult :=
  if s.isSpeaking then (s, ProcResult.droppedSpeaking)
  else if (trimStr text).length = 0 then (s, ProcResult.ignoredEmpty)
  else if nina_phrases.any (fun p => containsSub p (lowerStr text)) then
    (s, ProcResult.ignoredSelfEcho)
  else
    match subFind wake_word (lowerStr text) with
    | some i =>
      let s1 : ProcState := {s with isActive := true, wakeDetectedTime := now}
      let cmdPart := trimStr (text.drop (i + wake_word.length))
      if cmdPart ≠ [] ∧ 2 < cmdPart.length then
        ((runCommand s1 cmdPart).1, ProcResult.command cmdPart (runCommand s1 cmdPart).2)
      else (s1, ProcResult.wakeAck)
    | none =>
      if s.isActive = true ∧ now - s.wakeDetectedTime < 5 then
        ((runCommand s (trimStr text)).1,
          ProcResult.command (trimStr text) (runCommand s (trimStr text)).2)
      else (s, ProcResult.ignoredInactive)

/-- The `queue.Empty` branch of `_process_loop` (lines 250-254): on an
empty poll at time `now`, deactivate when the activation window has
expired. -/
def handleQueueEmpty (s : ProcState) (now : ℤ) : ProcState :=
  if s.isActive = true ∧ 5 < now - s.wakeDetectedTime then
    {s with isActive := false}
  else s

theorem runCommand_snd (s : ProcState) (cmd : Str) :
    (runCommand s cmd).2 = processCommand cmd := by
  rw [runCommand]
  split <;> rfl

/-! ## Claims about the processing loop (C4, C5, C8) -/

/-- C4 (amended).  A transcript arriving while Active but strictly
after the five-second activation window is handled exactly as it
would be in the Idle state (a fresh wake-word check), and when it
contains no wake word it is ignored: it is not dispatched as a
command and the state is unchanged — in particular the Active flag is
NOT cleared by the event itself; it is cleared by the queue-empty
poll of lines 250-254 once the window has expired. -/
theorem late_event_not_dispatched (s : ProcState) (now : ℤ)
    (hns : s.isSpeaking = false) (hact : s.isActive = true)
    (hlate : 5 < now - s.wakeDetectedTime) :
    (∀ text : Str, (handleTranscript s now text).2 =
      (handleTranscript {s with isActive := false} now text).2) ∧
    (∀ text : Str, subFind wake_word (lowerStr text) = none →
      (trimStr text).length ≠ 0 →
      nina_phrases.any (fun p => containsSub p (lowerStr text)) = false →
      handleTranscript s now text = (s, ProcResult.ignoredInactive)) ∧
    handleQueueEmpty s now = {s with isActive := false} := by
  refine ⟨?_, ?_, ?_⟩
  · intro text
    by_cases h1 : (trimStr text).length = 0
    · simp [handleTranscript, hns, h1]
    · by_cases h2 : nina_phrases.any (fun p => containsSub p (lowerStr text)) = true
      · simp [handleTranscript, hns, h1, h2]
      · cases h3 : subFind wake_word (lowerStr text) with
        | some i => simp [handleTranscript, hns, h1, h2, h3, runCommand_snd]
        | none =>
          have hnot : ¬ (now - s.wakeDetectedTime < 5) := by omega
          simp [handleTranscript, hns, h1, h2, h3, hnot]
  · intro text h3 h1 h2
    have hnot : ¬ (now - s.wakeDetectedTime < 5) := by omega
    simp [handleTranscript, hns, h1, h2, h3, hnot]
  · simp [handleQueueEmpty, hact, hlate]

/-- C4 counterexample.  State Active with `wake_detected_time = 0`, a
wake-word-free transcript arriving at time 6 (after the five-second
window): the handler leaves the state unchanged, so `is_active` is
still set afterwards — the state does NOT transition to Idle on the
events arrival, refuting that part of the claim. -/
theorem late_event_cex :
    handleTranscript ⟨true, 0, true, false⟩ 6 (("hello there").toList) =
      (⟨true, 0, true, false⟩, ProcResult.ignoredInactive) ∧
    (handleTranscript ⟨true, 0, true, false⟩ 6 (("hello there").toList)).1.isActive = true := by
  constructor
  · decide
  · decide

/-- C4 witness: the amended theorem applied to the Active state with
`wake_detected_time = 0` and a transcript at time 6. -/
theorem late_event_witness :
    ((⟨true, 0, true, false⟩ : ProcState).isSpeaking = false ∧
      (⟨true, 0, true, false⟩ : ProcState).isActive = true ∧
      5 < (6 : ℤ) - (⟨true, 0, true, false⟩ : ProcState).wakeDetectedTime) ∧
    handleTranscript ⟨true, 0, true, false⟩ 6 (("what is the weather").toList) =
      (⟨true, 0, true, false⟩, ProcResult.ignoredInactive) ∧
    handleQueueEmpty ⟨true, 0, true, false⟩ 6 = ⟨false, 0, true, false⟩ := by
  refine ⟨⟨rfl, rfl, by decide⟩, ?_, ?_⟩
  · exact (late_event_not_dispatched ⟨true, 0, true, false⟩ 6 rfl rfl
      (by decide)).2.1 (("what is the weather").toList) (by decide) (by decide) (by decide)
  · have h := (late_event_not_dispatched ⟨true, 0, true, false⟩ 6 rfl rfl
      (by decide)).2.2
    simpa using h

theorem runCommand_exit (s : ProcState) (c : Str)
    (hex : exit_words.any (fun w => containsSub w (lowerStr c)) = true) :
    runCommand s c =
      ({s with isSpeaking := true, isListening := false}, CmdOutcome.exitShutdown) := by
  have hpc : processCommand c = CmdOutcome.exitShutdown := by
    unfold processCommand
    rw [if_pos hex]
  rw [runCommand, if_pos hpc, hpc]

/-- C5 (amended).  Exit phrases are honoured only inside command
processing: whenever a dequeued transcript actually reaches
`_process_command` (wake word with a command part, or the Active
window) and the processed command text contains an exit word, the
outcome is an immediate shutdown — `is_listening` is cleared and the
text is never dispatched to the agent router; the exit check runs
before the canned replies and the router, so it takes precedence.
The original unconditional claim is refuted by `exit_phrase_cex`:
a transcript containing "goodbye" is discarded by the self-echo
filter of lines 211-221 before any exit handling, even when it also
contains the wake word. -/
theorem exit_word_terminates (s s1 : ProcState) (now : ℤ) (text cmd : Str)
    (out : CmdOutcome)
    (h : handleTranscript s now text = (s1, ProcResult.command cmd out))
    (hexit : exit_words.any (fun w => containsSub w (lowerStr cmd)) = true) :
    out = CmdOutcome.exitShutdown ∧ s1.isListening = false ∧
      ∀ c : Str, out ≠ CmdOutcome.dispatch c := by
  simp only [handleTranscript] at h
  split at h
  · simp at h
  split at h
  · simp at h
  split at h
  · simp at h
  split at h
  · split at h
    · rw [Prod.mk.injEq, ProcResult.command.injEq] at h
      obtain ⟨hs, hc, ho⟩ := h
      subst hc
      rw [runCommand_exit _ _ hexit] at hs ho
      simp only [] at hs ho
      subst hs
      subst ho
      exact ⟨rfl, rfl, by simp⟩
    · simp at h
  · split at h
    · rw [Prod.mk.injEq, ProcResult.command.injEq] at h
      obtain ⟨hs, hc, ho⟩ := h
      subst hc
      rw [runCommand_exit _ _ hexit] at hs ho
      simp only [] at hs ho
      subst hs
      subst ho
      exact ⟨rfl, rfl, by simp⟩
    · simp at h

/-- C5 counterexample.  The transcript "nina goodbye" contains both the
wake word and the exit phrase "goodbye", yet the self-echo filter
matches "goodbye" first and the event is dropped entirely: no state
change, no shutdown, `is_listening` stays true.  This refutes the
claim that any transcript containing an exit phrase terminates the
listening loop, and the claimed exit-over-wake precedence. -/
theorem exit_phrase_cex :
    containsSub (("goodbye").toList) (lowerStr (("nina goodbye").toList)) = true ∧
    handleTranscript ⟨false, 0, true, false⟩ 0 (("nina goodbye").toList) =
      (⟨false, 0, true, false⟩, ProcResult.ignoredSelfEcho) ∧
    (⟨false, 0, true, false⟩ : ProcState).isListening = true := by
  refine ⟨by decide, ?_, rfl⟩
  decide

/-- C5 witness: the amended theorem applied to the transcript
"nina stop", whose extracted command "stop" is an exit word. -/
theorem exit_word_witness :
    (handleTranscript ⟨false, 0, true, false⟩ 0 (("nina stop").toList) =
      (⟨true, 0, false, true⟩, ProcResult.command (("stop").toList) CmdOutcome.exitShutdown) ∧
     exit_words.any (fun w => containsSub w (lowerStr (("stop").toList))) = true) ∧
    (CmdOutcome.exitShutdown = CmdOutcome.exitShutdown ∧
      (⟨true, 0, false, true⟩ : ProcState).isListening = false ∧
      ∀ c : Str, CmdOutcome.exitShutdown ≠ CmdOutcome.dispatch c) :=
  ⟨⟨by decide, by decide⟩,
    exit_word_terminates ⟨false, 0, true, false⟩ ⟨true, 0, false, true⟩ 0
      (("nina stop").toList) (("stop").toList) CmdOutcome.exitShutdown
      (by decide) (by decide)⟩

/-- C8.  While Nina is speaking, the capture loop does not even read
the device (lines 135-138), so no utterance is emitted and the
segmentation state is untouched for the whole window; and the
processing loop drops any queued audio it dequeues while the flag is
set (lines 198-200), so nothing is forwarded for transcription.
`SimpleNinaVoice` has no barge-in path: capture is simply muted. -/
theorem speaking_mutes_capture :
    (∀ (s : VadState) (evs : List (Bool × Option ℤ)),
      (∀ p ∈ evs, p.1 = true) → audioRun s evs = (s, [])) ∧
    (∀ (s : ProcState) (now : ℤ) (text : Str), s.isSpeaking = true →
      handleTranscript s now text = (s, ProcResult.droppedSpeaking)) := by
  constructor
  · intro s evs
    induction evs generalizing s with
    | nil => intro _; rfl
    | cons ev rest ih =>
      intro hall
      have h1 : ev.1 = true := hall ev (by simp)
      have hstep : audioStep ev.1 ev.2 s = (s, none) := by rw [h1]; rfl
      rw [audioRun, hstep]
      simp [ih s (fun p hp => hall p (by simp [hp]))]
  · intro s now text hsp
    simp [handleTranscript, hsp]

/-- C8 witness: one muted capture iteration on a loud chunk, and one
processing iteration dequeued while speaking. -/
theorem speaking_mutes_capture_witness :
    ((∀ p ∈ [((true : Bool), some (2000 : ℤ))], p.1 = true) ∧
      audioRun VadState.init [((true : Bool), some (2000 : ℤ))] = (VadState.init, [])) ∧
    ((⟨false, 0, true, true⟩ : ProcState).isSpeaking = true ∧
      handleTranscript ⟨false, 0, true, true⟩ 0 (("find my resume").toList) =
        (⟨false, 0, true, true⟩, ProcResult.droppedSpeaking)) :=
  ⟨⟨by decide, speaking_mutes_capture.1 VadState.init _ (by decide)⟩,
    ⟨rfl, speaking_mutes_capture.2 ⟨false, 0, true, true⟩ 0 (("find my resume").toList) rfl⟩⟩

/-! ## Intent classification, from `IntentDetector.determine_intent`
(`nina_intent.py`, lines 13-140).  The personal configuration supplies
the quick-file names, website names and sports teams consulted by some
rules (`nina_config.py`). -/

structure PersonalConfig where
  quickFiles : List (Str × Str)
  websites : List (Str × Str)
  sportsTeams : List Str

def schedule_keywords : List Str :=
  [("schedule").toList, ("meeting").toList, ("appointment").toList,
    ("calendar").toList, ("agenda").toList]

def is_schedule_query (command : Str) : Bool :=
  schedule_keywords.any (fun k => containsSub k (lowerStr command))

def vision_keywords : List Str :=
  [("what screen").toList, ("what do you see").toList, ("can you see").toList,
    ("look at").toList, ("what\x27s on my screen").toList,
    ("what am i looking at").toList, ("help me with this").toList,
    ("help with current").toList, ("read the screen").toList,
    ("what window").toList, ("which application").toList, ("what app").toList,
    ("describe what").toList, ("tell me what you see").toList]

def is_vision_query (command : Str) : Bool :=
  vision_keywords.any (fun k => containsSub k (lowerStr command))

def fix_python_targets : List Str :=
  [("python").toList, ("code").toList, ("indentation").toList, ("formatting").toList]

def tech_keywords : List Str :=
  [("ping").toList, ("traceroute").toList, ("tracert").toList, ("ipconfig").toList,
    ("ip address").toList, ("ssid").toList, ("cmd").toList, ("command prompt").toList,
    ("powershell").toList, ("terminal").toList, ("admin").toList,
    ("bluetooth").toList, ("wifi").toList, ("network").toList, ("dns").toList,
    ("firewall").toList, ("task manager").toList, ("device manager").toList,
    ("services").toList, ("registry").toList, ("disk management").toList,
    ("defrag").toList, ("system info").toList, ("netstat").toList, ("arp").toList,
    ("ports").toList, ("processes").toList, ("msconfig").toList,
    ("event viewer").toList, ("defender").toList, ("updates").toList]

def website_open_words : List Str :=
  [("open").toList, ("go to").toList, ("visit").toList, ("show").toList]

def hardware_keywords : List Str :=
  [("memory").toList, ("ram").toList, ("disk").toList, ("space").toList,
    ("storage").toList, ("gpu").toList, ("graphics").toList, ("hardware").toList,
    ("system").toList, ("specs").toList, ("how much").toList]

def hardware_core_keywords : List Str :=
  [("memory").toList, ("ram").toList, ("disk").toList, ("space").toList,
    ("storage").toList]

def news_keywords : List Str :=
  [("news").toList, ("headline").toList, ("headlines").toList,
    ("latest news").toList, ("breaking news").toList, ("current events").toList]

def sports_event_words : List Str :=
  [("game").toList, ("score").toList, ("won").toList, ("lost").toList,
    ("beat").toList, ("play").toList, ("played").toList]

def sports_time_words : List Str :=
  [("yesterday").toList, ("today").toList, ("last night").toList,
    ("team").toList, ("they").toList]

def app_launch_verbs : List Str :=
  [("open").toList, ("launch").toList, ("start").toList, ("run").toList]

def app_names : List Str :=
  [("word").toList, ("excel").toList, ("powerpoint").toList, ("notepad").toList,
    ("chrome").toList, ("firefox").toList, ("edge").toList, ("calculator").toList,
    ("paint").toList, ("outlook").toList]

def folder_ops : List Str :=
  [("open").toList, ("show").toList, ("go to").toList, ("access").toList]

def open_file_verbs : List Str :=
  [("open").toList, ("opened").toList, ("launch").toList, ("start").toList,
    ("run").toList]

def open_file_nouns : List Str :=
  [("resume").toList, ("pdf").toList, ("doc").toList, ("file").toList,
    ("document").toList]

def file_extensions : List Str :=
  [(".pdf").toList, (".doc").toList, (".docx").toList, (".txt").toList,
    (".xlsx").toList, (".ppt").toList]

def guardicore_verbs : List Str := [("open").toList, ("opened").toList]

def find_verbs : List Str :=
  [("find").toList, ("search").toList, ("look for").toList, ("locate").toList,
    ("where is").toList]

def find_nouns : List Str :=
  [("file").toList, ("document").toList, ("resume").toList, ("pdf").toList,
    ("doc").toList, (".txt").toList, (".docx").toList]

def code_verbs : List Str :=
  [("write").toList, ("create").toList, ("make").toList, ("build").toList]

def code_nouns : List Str :=
  [("code").toList, ("script").toList, ("program").toList, ("calculator").toList,
    ("function").toList, ("app").toList]

def llm_phrases : List Str :=
  [("switch model").toList, ("use model").toList, ("launch model").toList,
    ("list models").toList, ("current model").toList, ("install model").toList,
    ("switch to").toList, ("activate").toList]

def llm_words : List Str :=
  [("model").toList, ("llm").toList, ("coder").toList, ("deepseek").toList,
    ("codellama").toList, ("default").toList]

def time_words : List Str :=
  [("what").toList, ("current").toList, ("tell").toList]

def search_phrases : List Str :=
  [("who is").toList, ("what is").toList, ("search for").toList,
    ("look up").toList, ("tell me about").toList]

/-- `IntentDetector.determine_intent` (lines 30-140): an ordered chain
of keyword rules over the lowered command, falling back to
"general". -/
def determineIntent (cfg : PersonalConfig) (command : Str) : Str :=
  let cmd := lowerStr command
  if is_vision_query command then ("vision").toList
  else if containsSub (("fix").toList) cmd &&
      fix_python_targets.any (fun w => containsSub w cmd) then ("fix_python").toList
  else if tech_keywords.any (fun k => containsSub k cmd) then ("tech").toList
  else if containsSub (("open").toList) cmd &&
      cfg.quickFiles.any (fun p => containsSub p.1 cmd) then ("open_quick_file").toList
  else if website_open_words.any (fun w => containsSub w cmd) &&
      cfg.websites.any (fun p => containsSub p.1 cmd && p.1 != ("news").toList) then
    ("open_website").toList
  else if is_schedule_query command then ("schedule").toList
  else if hardware_keywords.any (fun w => containsSub w cmd) &&
      hardware_core_keywords.any (fun w => containsSub w cmd) then ("hardware").toList
  else if news_keywords.any (fun w => containsSub w cmd) then ("news").toList
  else if cfg.sportsTeams.any (fun t => containsSub t cmd) ||
      (sports_event_words.any (fun w => containsSub w cmd) &&
        sports_time_words.any (fun w => containsSub w cmd)) then ("sports").toList
  else if app_launch_verbs.any (fun w => containsSub w cmd) &&
      app_names.any (fun a => containsSub a cmd) then ("open_app").toList
  else if containsSub (("folder").toList) cmd &&
      folder_ops.any (fun w => containsSub w cmd) then ("folder").toList
  else if (open_file_verbs.any (fun w => containsSub w cmd) &&
        open_file_nouns.any (fun w => containsSub w cmd) &&
        !containsSub (("folder").toList) cmd) ||
      file_extensions.any (fun x => containsSub x cmd) ||
      (containsSub (("guardicore").toList) cmd &&
        guardicore_verbs.any (fun w => containsSub w cmd) &&
        !containsSub (("folder").toList) cmd) then ("open_file").toList
  else if find_verbs.any (fun w => containsSub w cmd) &&
      find_nouns.any (fun w => containsSub w cmd) then ("files").toList
  else if code_verbs.any (fun w => containsSub w cmd) &&
      code_nouns.any (fun w => containsSub w cmd) then ("code").toList
  else if llm_phrases.any (fun w => containsSub w cmd) &&
      llm_words.any (fun w => containsSub w cmd) then ("llm_management").toList
  else if containsSub (("weather").toList) cmd ||
      containsSub (("temperature").toList) cmd ||
      containsSub (("forecast").toList) cmd then ("weather").toList
  else if containsSub (("time").toList) cmd &&
      time_words.any (fun w => containsSub w cmd) then ("time").toList
  else if search_phrases.any (fun w => containsSub w cmd) then ("search").toList
  else ("general").toList

/-- Modelled from the spec wording of section 4.5: an ordered table of
predicate/intent pairs where the first matching rule wins and a
default fallback answers when none matches. -/
def firstMatch : List ((PersonalConfig → Str → Bool) × Str) → PersonalConfig → Str → Str
  | [], _, _ => ("general").toList
  | r :: rs, cfg, command =>
    if r.1 cfg command then r.2 else firstMatch rs cfg command

/-- The rules of `determine_intent` as an ordered table, in source
order. -/
def intent_rules : List ((PersonalConfig → Str → Bool) × Str) :=
  [(fun _ command => is_vision_query command, ("vision").toList),
    (fun _ command => containsSub (("fix").toList) (lowerStr command) &&
      fix_python_targets.any (fun w => containsSub w (lowerStr command)),
      ("fix_python").toList),
    (fun _ command => tech_keywords.any (fun k => containsSub k (lowerStr command)),
      ("tech").toList),
    (fun cfg command => containsSub (("open").toList) (lowerStr command) &&
      cfg.quickFiles.any (fun p => containsSub p.1 (lowerStr command)),
      ("open_quick_file").toList),
    (fun cfg command => website_open_words.any (fun w => containsSub w (lowerStr command)) &&
      cfg.websites.any (fun p => containsSub p.1 (lowerStr command) &&
        p.1 != ("news").toList), ("open_website").toList),
    (fun _ command => is_schedule_query command, ("schedule").toList),
    (fun _ command => hardware_keywords.any (fun w => containsSub w (lowerStr command)) &&
      hardware_core_keywords.any (fun w => containsSub w (lowerStr command)),
      ("hardware").toList),
    (fun _ command => news_keywords.any (fun w => containsSub w (lowerStr command)),
      ("news").toList),
    (fun cfg command => cfg.sportsTeams.any (fun t => containsSub t (lowerStr command)) ||
      (sports_event_words.any (fun w => containsSub w (lowerStr command)) &&
        sports_time_words.any (fun w => containsSub w (lowerStr command))),
      ("sports").toList),
    (fun _ command => app_launch_verbs.any (fun w => containsSub w (lowerStr command)) &&
      app_names.any (fun a => containsSub a (lowerStr command)), ("open_app").toList),
    (fun _ command => containsSub (("folder").toList) (lowerStr command) &&
      folder_ops.any (fun w => containsSub w (lowerStr command)), ("folder").toList),
    (fun _ command => (open_file_verbs.any (fun w => containsSub w (lowerStr command)) &&
        open_file_nouns.any (fun w => containsSub w (lowerStr command)) &&
        !containsSub (("folder").toList) (lowerStr command)) ||
      file_extensions.any (fun x => containsSub x (lowerStr command)) ||
      (containsSub (("guardicore").toList) (lowerStr command) &&
        guardicore_verbs.any (fun w => containsSub w (lowerStr command)) &&
        !containsSub (("folder").toList) (lowerStr command)), ("open_file").toList),
    (fun _ command => find_verbs.any (fun w => containsSub w (lowerStr command)) &&
      find_nouns.any (fun w => containsSub w (lowerStr command)), ("files").toList),
    (fun _ command => code_verbs.any (fun w => containsSub w (lowerStr command)) &&
      code_nouns.any (fun w => containsSub w (lowerStr command)), ("code").toList),
    (fun _ command => llm_phrases.any (fun w => containsSub w (lowerStr command)) &&
      llm_words.any (fun w => containsSub w (lowerStr command)),
      ("llm_management").toList),
    (fun _ command => containsSub (("weather").toList) (lowerStr command) ||
      containsSub (("temperature").toList) (lowerStr command) ||
      containsSub (("forecast").toList) (lowerStr command), ("weather").toList),
    (fun _ command => containsSub (("time").toList) (lowerStr command) &&
      time_words.any (fun w => containsSub w (lowerStr command)), ("time").toList),
    (fun _ command => search_phrases.any (fun w => containsSub w (lowerStr command)),
      ("search").toList)]

/-- C7.  Intent classification is a pure function — two runs on equal
command text with the same configuration give the same intent — and
it coincides with first-match evaluation of the ordered rule table
`intent_rules`, so earlier rules win whenever several match. -/
theorem intent_deterministic_priority :
    (∀ (cfg : PersonalConfig) (c1 c2 : Str), c1 = c2 →
      determineIntent cfg c1 = determineIntent cfg c2) ∧
    (∀ (cfg : PersonalConfig) (c : Str),
      determineIntent cfg c = firstMatch intent_rules cfg c) :=
  ⟨fun _ _ _ h => h ▸ rfl, fun _ _ => rfl⟩

/-- C7 witness: both parts applied to the default sports-team
configuration and the command "what time is it". -/
theorem intent_deterministic_priority_witness :
    (("what time is it").toList = ("what time is it").toList ∧
      determineIntent ⟨[], [], [("dodgers").toList]⟩ (("what time is it").toList) =
        determineIntent ⟨[], [], [("dodgers").toList]⟩ (("what time is it").toList)) ∧
    determineIntent ⟨[], [], [("dodgers").toList]⟩ (("what time is it").toList) =
      firstMatch intent_rules ⟨[], [], [("dodgers").toList]⟩ (("what time is it").toList) :=
  ⟨⟨rfl, intent_deterministic_priority.1 ⟨[], [], [("dodgers").toList]⟩
      (("what time is it").toList) (("what time is it").toList) rfl⟩,
    intent_deterministic_priority.2 ⟨[], [], [("dodgers").toList]⟩
      (("what time is it").toList)⟩

/-! ## Barge-in and playback, from `NinaIntegration`
(`nina_agentic_integration.py`).

`IntegState` holds the flags of `nina_config` ("awake", "is_speaking",
initialised `True`/`False` in lines 49-57) together with the
`stop_speaking` event and the pygame playback state.  The field
`last_wake_time` is set by the source but never read, so it is not
modelled. -/

structure IntegState where
  isSpeaking : Bool
  stopSet : Bool
  musicPlaying : Bool
  awake : Bool
deriving DecidableEq

def wake_patterns : List Str :=
  [("nina").toList, ("nena").toList, ("mina").toList, ("lina").toList]

/-- `NinaIntegration.is_wake_word` (lines 199-202). -/
def is_wake_word (text : Str) : Bool :=
  wake_patterns.any (fun p => containsSub p (lowerStr text))

/-- Python `hay.replace(needle, repl)`: every occurrence replaced,
scanning left to right. -/
def replaceList (needle repl : Str) : Str → Str
  | [] => []
  | c :: t =>
    if h : needle ≠ [] ∧ needle.isPrefixOf (c :: t) then
      repl ++ replaceList needle repl ((c :: t).drop needle.length)
    else c :: replaceList needle repl t
termination_by hay => hay.length
decreasing_by
  · have hn : 0 < needle.length := List.length_pos.mpr h.1
    simp only [List.length_drop, List.length_cons]
    omega
  · simp only [List.length_cons]
    omega

def remove_patterns : List Str :=
  [("nina").toList, ("hey nina").toList, ("hi nina").toList,
    ("hello nina").toList, ("ok nina").toList]

/-- `NinaIntegration.remove_wake_word` (lines 204-209): each pattern is
replaced by the empty string in the lowered text and the result is
stripped after each replacement; if nothing remains the original text
is returned. -/
def removeWakeWord (text : Str) : Str :=
  let result := remove_patterns.foldl
    (fun acc p => trimStr (replaceList p [] acc)) (lowerStr text)
  if result.isEmpty then text else result

inductive SpeechOutcome
  | tooShort
  | notAwake
  | wakeAck
  | dispatched (cmd : Str)
deriving DecidableEq

/-- `NinaIntegration.process_voice_command` (lines 211-252): a wake
word marks the session awake and either dispatches the remaining
command (when longer than two characters) or answers with an
acknowledgement; without the wake word the text is dispatched only
while awake.  `dispatched` stands for the hand-off to
`interaction.think()`. -/
def processVoiceCommand (s : IntegState) (text : Str) : IntegState × SpeechOutcome :=
  if is_wake_word text then
    if removeWakeWord text ≠ [] ∧ 2 < (removeWakeWord text).length then
      ({s with awake := true}, SpeechOutcome.dispatched (removeWakeWord text))
    else ({s with awake := true}, SpeechOutcome.wakeAck)
  else if s.awake = false then (s, SpeechOutcome.notAwake)
  else (s, SpeechOutcome.dispatched text)

/-- `NinaIntegration.on_speech_detected` (lines 254-280): on a voice
onset while speech playback is active it first sets the
`stop_speaking` event and stops the pygame channel, then transcribes;
transcripts shorter than two characters are dropped, the rest go to
`process_voice_command`. -/
def onSpeechDetected (s : IntegState) (transcript : Str) : IntegState × SpeechOutcome :=
  let s1 := if s.isSpeaking then {s with stopSet := true, musicPlaying := false} else s
  if (trimStr transcript).length < 2 then (s1, SpeechOutcome.tooShort)
  else processVoiceCommand s1 (trimStr transcript)

/-- The polling loop of `NinaIntegration.nina_speak` (lines 178-182):
while the channel is busy, each iteration breaks when the stop event
is observed.  `n` is the number of busy polls remaining until natural
completion and `stopSig i` tells whether the stop event is set at
poll `i`; the result is the number of polls consumed and whether
playback was cancelled. -/
def playExit : ℕ → (ℕ → Bool) → ℕ × Bool
  | 0, _ => (0, false)
  | n + 1, stopSig =>
    if stopSig 0 then (0, true)
    else ((playExit n (fun k => stopSig (k + 1))).1 + 1,
      (playExit n (fun k => stopSig (k + 1))).2)

theorem playExit_cancel : ∀ (n k : ℕ) (stopSig : ℕ → Bool), k < n → stopSig k = true →
    (playExit n stopSig).2 = true ∧ (playExit n stopSig).1 ≤ k := by
  intro n
  induction n with
  | zero => intro k _ hk _; omega
  | succ n ih =>
    intro k stopSig hk hs
    by_cases h0 : stopSig 0 = true
    · have hstep : playExit (n + 1) stopSig = (0, true) := by
        simp [playExit, h0]
      rw [hstep]
      exact ⟨rfl, by omega⟩
    · have hk0 : k ≠ 0 := by
        intro hz
        rw [hz] at hs
        exact h0 hs
      obtain ⟨m, rfl⟩ : ∃ m, k = m + 1 := ⟨k - 1, by omega⟩
      have hin := ih m (fun j => stopSig (j + 1)) (by omega) hs
      have hstep : playExit (n + 1) stopSig =
          ((playExit n (fun j => stopSig (j + 1))).1 + 1,
            (playExit n (fun j => stopSig (j + 1))).2) := by
        simp [playExit, h0]
      rw [hstep]
      exact ⟨hin.1, by omega⟩

/-- C9.  A speech onset detected while the player is speaking raises
the cancellation event at once and stops the channel (before any
transcription work); the polling playback loop exits no later than
the poll at which the stop event is visible — strictly before its
natural completion — and the new utterance, once transcribed to at
least two characters while the session is awake, is accepted and
processed rather than dropped. -/
theorem barge_in_cancels (s : IntegState) (transcript : Str) (n k : ℕ)
    (stopSig : ℕ → Bool) (hsp : s.isSpeaking = true) (haw : s.awake = true)
    (hlen : 2 ≤ (trimStr transcript).length) (hk : k < n) (hstop : stopSig k = true) :
    (onSpeechDetected s transcript).1.stopSet = true ∧
    (onSpeechDetected s transcript).1.musicPlaying = false ∧
    (playExit n stopSig).2 = true ∧ (playExit n stopSig).1 ≤ k ∧
    (onSpeechDetected s transcript).2 ≠ SpeechOutcome.tooShort ∧
    (onSpeechDetected s transcript).2 ≠ SpeechOutcome.notAwake := by
  have hplay := playExit_cancel n k stopSig hk hstop
  have hnot : ¬ (trimStr transcript).length < 2 := by omega
  refine ⟨?_, ?_, hplay.1, hplay.2, ?_, ?_⟩ <;>
    · simp only [onSpeechDetected, processVoiceCommand, hsp, if_true, hnot, if_false]
      split_ifs <;> simp_all

/-- C9 witness: the theorem applied to an active-playback state, the
transcript "open the downloads folder", a playback of three remaining
polls and a stop event visible at poll one. -/
theorem barge_in_cancels_witness :
    ((⟨true, false, true, true⟩ : IntegState).isSpeaking = true ∧
      (⟨true, false, true, true⟩ : IntegState).awake = true ∧
      2 ≤ (trimStr (("open the downloads folder").toList)).length ∧
      (1 : ℕ) < 3 ∧ (fun i => i == 1) (1 : ℕ) = true) ∧
    ((onSpeechDetected ⟨true, false, true, true⟩
        (("open the downloads folder").toList)).1.stopSet = true ∧
      (onSpeechDetected ⟨true, false, true, true⟩
        (("open the downloads folder").toList)).1.musicPlaying = false ∧
      (playExit 3 (fun i => i == 1)).2 = true ∧
      (playExit 3 (fun i => i == 1)).1 ≤ 1 ∧
      (onSpeechDetected ⟨true, false, true, true⟩
        (("open the downloads folder").toList)).2 ≠ SpeechOutcome.tooShort ∧
      (onSpeechDetected ⟨true, false, true, true⟩
        (("open the downloads folder").toList)).2 ≠ SpeechOutcome.notAwake) :=
  ⟨⟨rfl, rfl, by decide, by decide, rfl⟩,
    barge_in_cancels ⟨true, false, true, true⟩ (("open the downloads folder").toList)
      3 1 (fun i => i == 1) rfl rfl (by decide) (by decide) rfl⟩

/-! ## Response adaptation, from `NinaCore._adapt_response`
(`nina_voice_system.py`, lines 517-529).  The `profile` parameter of
the source is not used by the function body and is omitted. -/

def sadIntro : Str := ("I understand this might be difficult. ").toList

def happyIntro : Str := ("Great to hear you\x27re in a good mood! ").toList

/-- The length-limiting step of lines 519-521. -/
def truncateForSpeech (response : Str) : Str :=
  if 300 < response.length then response.take 297 ++ ("...").toList else response

/-- `_adapt_response`: truncation first, then an emotional
acknowledgment prefix chosen from the (possibly truncated) text. -/
def adaptResponse (response emotion : Str) : Str :=
  if emotion = ("sad").toList ∧
      containsSub (("sorry").toList) (lowerStr (truncateForSpeech response)) = false then
    sadIntro ++ truncateForSpeech response
  else if emotion = ("happy").toList ∧
      containsSub (("great").toList) (lowerStr (truncateForSpeech response)) = false then
    happyIntro ++ truncateForSpeech response
  else truncateForSpeech response

/-- C10 (amended).  Responses longer than 300 characters are truncated
to their first 297 characters plus "...", before any emotional
prefix; responses of at most 300 characters pass the truncation step
unchanged; and the spoken answer is always the truncated text,
possibly preceded by one fixed acknowledgment prefix.  The final
claim clause — that the spoken answer is never the full text of a
long response — fails for a contrived self-referential response, see
`adapt_response_cex`; it does hold of the truncation output itself,
which always differs from a long response. -/
theorem adapt_response_truncation (r : Str) :
    (300 < r.length →
      truncateForSpeech r = r.take 297 ++ ("...").toList ∧ truncateForSpeech r ≠ r) ∧
    (r.length ≤ 300 → truncateForSpeech r = r) ∧
    (∀ e : Str, adaptResponse r e = sadIntro ++ truncateForSpeech r ∨
      adaptResponse r e = happyIntro ++ truncateForSpeech r ∨
      adaptResponse r e = truncateForSpeech r) := by
  refine ⟨?_, ?_, ?_⟩
  · intro hlong
    refine ⟨by rw [truncateForSpeech, if_pos hlong], ?_⟩
    rw [truncateForSpeech, if_pos hlong]
    intro heq
    have hlen := congrArg List.length heq
    have h3 : (("...").toList).length = 3 := rfl
    simp only [List.length_append, List.length_take, h3] at hlen
    omega
  · intro hshort
    rw [truncateForSpeech, if_neg (by omega)]
  · intro e
    rw [adaptResponse]
    split_ifs <;> simp

/-- C10 witness: the amended theorem applied to a 301-character
response. -/
theorem adapt_response_truncation_witness :
    300 < (List.replicate 301 'a').length ∧
    (truncateForSpeech (List.replicate 301 'a') =
        (List.replicate 301 'a').take 297 ++ ("...").toList ∧
      truncateForSpeech (List.replicate 301 'a') ≠ List.replicate 301 'a') :=
  ⟨by decide, (adapt_response_truncation (List.replicate 301 'a')).1 (by decide)⟩

/-- A self-referential long response: the sad acknowledgment prefix
repeated periodically for 335 characters, closed by "...".  It
satisfies `r = sadIntro ++ r.take 297 ++ "..."`. -/
def selfRefResponse : Str :=
  (List.replicate 8 sadIntro).flatten ++ sadIntro.take 31 ++ ("...").toList

/-- C10 counterexample.  For `selfRefResponse` (338 characters) with
emotion "sad", the adapted answer — prefix plus truncation — is
exactly the original full text, so the spoken answer IS the full
text of a handler response longer than 300 characters, refuting the
final clause of the claim. -/
theorem adapt_response_cex :
    300 < selfRefResponse.length ∧
    adaptResponse selfRefResponse (("sad").toList) = selfRefResponse := by
  constructor
  · decide
  · decide
